import Mathlib

/-
Shallow embedding of ssp_esri_pydantic.py: the schema-synthesis engine that
turns geodatabase table metadata (fields, domains, subtypes) into a pydantic
validation model.  Python exceptions are modelled with Except PyErr; the
pydantic (annotation, Field(...)) pairs are modelled by PydType × PydDefault;
Python dicts (create_model keyword params) by insertion-ordered association
lists.  Numeric literals from the source are modelled exactly as the decimal
literals written in the code (float rounding is not modelled; no claim
depends on it).
-/

namespace SspEsri

/-- Scalar Python values as they occur in this program: domain codes, subtype
codes and subtype default values (`Dict[Any, str]` keys etc.). -/
inductive Value where
  | vInt : Int → Value
  | vStr : String → Value
  | vFloat : ℚ → Value
  | vNone : Value
deriving DecidableEq

/-- The annotation (first slot) of a pydantic tuple, mirroring the values of
`field_type_to_pydantic_dict` plus the composite forms the code builds:
`Literal[...]`, `Optional[...]`, `Any`.  `geometrySentinel` stands for the
string "GEOMETRY" the dict maps Geometry to (the comment in the source says
it is not validated). -/
inductive PydType where
  | base64Bytes : PydType
  | datetimeType : PydType
  | floatType : PydType
  | geometrySentinel : PydType
  | uuidType : PydType
  | intType : PydType
  | strType : PydType
  | anyType : PydType
  | literal : List Value → PydType
  | optional : PydType → PydType
deriving DecidableEq

/-- Keyword arguments of a `pydantic.Field(...)` call as used in the source:
`default_factory=lambda: None` (modelled by `defaultNone = true`),
`max_length=`, `ge=`, `le=` (a Python `None` argument means unset). -/
structure FieldInfo where
  defaultNone : Bool
  maxLength : Option Nat
  ge : Option ℚ
  le : Option ℚ
deriving DecidableEq

/-- The second slot of a pydantic tuple: either a `Field(...)` object, or a
raw default value (line 215 passes `subtype_code` itself as the default). -/
inductive PydDefault where
  | info : FieldInfo → PydDefault
  | value : Value → PydDefault
deriving DecidableEq

/-- A `(annotation, default)` pair handed to `create_model`. -/
abbrev PydTuple := PydType × PydDefault

/-- `Field()` with no arguments. -/
def emptyField : FieldInfo :=
  { defaultNone := false, maxLength := none, ge := none, le := none }

/-- An arcpy domain object as consumed by the code (only the attributes the
code reads: name, domainType, codedValues, range, type).  `codedValues` is
`None` for range domains (the `_Domain` model marks it Optional). -/
structure DomainRec where
  name : String
  domainType : String
  codedValues : Option (List Value)
  range : Option ℚ × Option ℚ
  type : String
deriving DecidableEq

/-- An arcpy field description (the attributes the code reads). -/
structure FieldRec where
  name : String
  type : String
  isNullable : Bool
  editable : Bool
  length : Nat
  domain : String
deriving DecidableEq

/-- One entry of `arcpy.da.ListSubtypes`: the subtype's Name and its
FieldValues dict, field name → (default value, domain object or None).
Only the domain object's `.name` is read, so it is modelled by its name. -/
structure SubtypeRec where
  name : String
  fieldValues : List (String × (Option Value × Option String))
deriving DecidableEq

/-- The parts of `arcpy.da.Describe` the code reads. -/
structure TableDesc where
  fields : List FieldRec
  shapeFieldName : Option String
  subtypeFieldName : String
deriving DecidableEq

/-- Everything make_table_adapter reads from the geodatabase: the table name
(basename of the path), the Describe dict, the domain catalog and the
subtypes dict in iteration order. -/
structure TableInput where
  tableName : String
  desc : TableDesc
  domainsList : List DomainRec
  subtypes : List (Value × SubtypeRec)
deriving DecidableEq

/-- Python exceptions that the code can raise internally (all are caught by
the top-level `except Exception`). -/
inductive PyErr where
  | keyError : String → PyErr
  | attrError : String → PyErr
  | nameError : String → PyErr
  | typeError : String → PyErr
  | readFailure : String → PyErr
deriving DecidableEq

/-- The produced TypeAdapter: a flat model (name, create_model params) or a
discriminated union of subtype models. -/
inductive TableModel where
  | flat : String → List (String × PydTuple) → TableModel
  | union : String → List (String × List (String × PydTuple)) → TableModel
deriving DecidableEq

/-- The entries of `field_type_to_pydantic_dict` (lines 37-54) in source
order. -/
def field_type_to_pydantic_entries : List (String × PydType) :=
  [("Blob", PydType.base64Bytes),
   ("Date", PydType.datetimeType),
   ("Double", PydType.floatType),
   ("Geometry", PydType.geometrySentinel),
   ("GlobalID", PydType.uuidType),
   ("Guid", PydType.uuidType),
   ("Integer", PydType.intType),
   ("SmallInteger", PydType.intType),
   ("Long", PydType.intType),
   ("Short", PydType.intType),
   ("OID", PydType.intType),
   ("Raster", PydType.base64Bytes),
   ("Single", PydType.floatType),
   ("String", PydType.strType),
   ("Text", PydType.strType),
   ("Float", PydType.floatType)]

/-- Lookup in `field_type_to_pydantic_dict`; `none` means a KeyError. -/
def field_type_to_pydantic_dict (t : String) : Option PydType :=
  (field_type_to_pydantic_entries.find? (fun p => p.1 == t)).map Prod.snd

/-- The entries of `field_type_min_max` (lines 56-71), decimal literals
modelled exactly. -/
def field_type_min_max_entries : List (String × (ℚ × ℚ)) :=
  [("SmallInteger", (-32768, 32767)),
   ("Short", (-32768, 32767)),
   ("SHORT", (-32768, 32767)),
   ("Integer", (-2147483648, 2147483647)),
   ("Long", (-2147483648, 2147483647)),
   ("LONG", (-2147483648, 2147483647)),
   ("Single", (-(3.4e38 : ℚ), (1.2e38 : ℚ))),
   ("SINGLE", (-(3.4e38 : ℚ), (1.2e38 : ℚ))),
   ("Float", (-(3.4e38 : ℚ), (1.2e38 : ℚ))),
   ("FLOAT", (-(3.4e38 : ℚ), (1.2e38 : ℚ))),
   ("Double", (-(2.2e308 : ℚ), (1.8e308 : ℚ))),
   ("DOUBLE", (-(2.2e308 : ℚ), (1.8e308 : ℚ))),
   ("BigInteger", (-9007199254740991, 9007199254740991)),
   ("BIGINTEGER", (-9007199254740991, 9007199254740991))]

/-- Membership test / lookup in `field_type_min_max`. -/
def field_type_min_max (t : String) : Option (ℚ × ℚ) :=
  (field_type_min_max_entries.find? (fun p => p.1 == t)).map Prod.snd

/-- The linear search of lines 81-85. -/
def findDomain (domainsList : List DomainRec) (domainName : String) :
    Option DomainRec :=
  domainsList.find? (fun d => d.name == domainName)

/-- `make_domain_tuple` (lines 74-115).  `.ok none` models the Python `return
None` paths (domain not found after a logged warning, or empty coded-value
set); `.error` models exceptions that escape the function (`None.keys()`
AttributeError, KeyError on an unmapped range-domain type). -/
def make_domain_tuple (domainsList : List DomainRec) (domainName : String)
    (nullable : Bool) (insertExplicit : Bool) (maxLength : Option Nat) :
    Except PyErr (Option PydTuple) :=
  match findDomain domainsList domainName with
  | none => Except.ok none
  | some theDomain =>
    if theDomain.domainType = "CodedValue" then
      match theDomain.codedValues with
      | none => Except.error (PyErr.attrError "keys")
      | some domainCodes =>
        if domainCodes.length = 0 then Except.ok none
        else if !nullable && insertExplicit then
          Except.ok (some (PydType.literal domainCodes,
            PydDefault.info { emptyField with maxLength := maxLength }))
        else
          Except.ok (some (PydType.optional (PydType.literal domainCodes),
            PydDefault.info
              { defaultNone := true, maxLength := maxLength, ge := none, le := none }))
    else
      match field_type_to_pydantic_dict theDomain.type with
      | none => Except.error (PyErr.keyError theDomain.type)
      | some pydanticFieldType =>
        if !nullable && insertExplicit then
          Except.ok (some (pydanticFieldType,
            PydDefault.info
              { defaultNone := false, maxLength := none,
                ge := theDomain.range.1, le := theDomain.range.2 }))
        else
          Except.ok (some (PydType.optional pydanticFieldType,
            PydDefault.info
              { defaultNone := true, maxLength := none,
                ge := theDomain.range.1, le := theDomain.range.2 }))

/-- ASCII lower-casing of one character, modelling str.casefold() on the
ASCII field names this program handles. -/
def foldChar (c : Char) : Char :=
  if 65 ≤ c.toNat ∧ c.toNat ≤ 90 then Char.ofNat (c.toNat + 32) else c

/-- str.casefold() as a character list (all names in scope are ASCII). -/
def casefold (s : String) : List Char := s.data.map foldChar

/-- The shape-field test `field.name.casefold() == shape_field_name.casefold()`
guarded by `shape_field_name is not None`. -/
def shapeMatches (shapeFieldName : Option String) (fieldName : String) : Bool :=
  match shapeFieldName with
  | some s => casefold fieldName == casefold s
  | none => false

/-- Lines 217-232 and 289-308: the node derived from the field's own type and
the static per-type range when no usable domain constrains it.  Both code
sites compute `max_length` with the same formula; the caller passes it in. -/
def typeDerivedNode (pydanticFieldType : PydType) (maxLength : Option Nat)
    (isNullable : Bool) (insertExplicit : Bool) (fieldType : String) : PydTuple :=
  let gl : Option ℚ × Option ℚ :=
    match field_type_min_max fieldType with
    | some p => (some p.1, some p.2)
    | none => (none, none)
  if !isNullable && insertExplicit then
    (pydanticFieldType,
      PydDefault.info { defaultNone := false, maxLength := maxLength, ge := gl.1, le := gl.2 })
  else
    (PydType.optional pydanticFieldType,
      PydDefault.info { defaultNone := true, maxLength := maxLength, ge := gl.1, le := gl.2 })

/-- Lines 196-201 / 271-274: the effective domain name of a field — the
subtype override's domain (when present), else the field's own declared
domain when non-empty, else none.  The flat builder has no override and
passes `none` for the first argument. -/
def effectiveDomainName (stDomain : Option String) (fieldDomain : String) :
    Option String :=
  match stDomain with
  | some dn => some dn
  | none => if fieldDomain ≠ "" then some fieldDomain else none

/-- Lines 203-211 / 276-284: call make_domain_tuple when there is an
effective domain name, else keep `pydantic_tuple = None`. -/
def domainPhase (domainsList : List DomainRec) (domainName : Option String)
    (nullable : Bool) (insertExplicit : Bool) (maxLength : Option Nat) :
    Except PyErr (Option PydTuple) :=
  match domainName with
  | some dn => make_domain_tuple domainsList dn nullable insertExplicit maxLength
  | none => Except.ok none

/-- The `max_length` computed at lines 178-181 / 254-257 (and recomputed
identically at 289-294): `field.length` for String-typed fields only. -/
def maxLengthOf (field : FieldRec) : Option Nat :=
  if field.type = "String" then some field.length else none

/-- One iteration of the subtype builder's field loop (lines 175-233).
`.ok none` models `continue` (shape field already added, or non-editable
field); `.ok (some (name, tuple))` models the assignment
`create_model_params[field.name] = pydantic_tuple`.  The
`field_type_to_pydantic_dict` lookup happens before the skip tests, as in the
source (line 177), so an unmapped type raises even for skipped fields.  The
`elif field.name == subtype_field_name` comparison raises NameError when no
field matched the declared subtype field name (the variable is unbound). -/
def subtypeFieldStep (domainsList : List DomainRec)
    (shapeFieldName : Option String) (subtypeFieldName : Option String)
    (subtypeCode : Value) (insertExplicit : Bool)
    (stTuple : Option Value × Option String) (field : FieldRec) :
    Except PyErr (Option (String × PydTuple)) :=
  match field_type_to_pydantic_dict field.type with
  | none => Except.error (PyErr.keyError field.type)
  | some pydanticFieldType =>
    if shapeMatches shapeFieldName field.name then Except.ok none
    else if field.editable = false then Except.ok none
    else
      match domainPhase domainsList (effectiveDomainName stTuple.2 field.domain)
          field.isNullable insertExplicit (maxLengthOf field) with
      | Except.error e => Except.error e
      | Except.ok (some t) => Except.ok (some (field.name, t))
      | Except.ok none =>
        match subtypeFieldName with
        | none => Except.error (PyErr.nameError "subtype_field_name")
        | some sfn =>
          if field.name = sfn then
            Except.ok (some (field.name,
              (PydType.literal [subtypeCode], PydDefault.value subtypeCode)))
          else
            Except.ok (some (field.name,
              typeDerivedNode pydanticFieldType (maxLengthOf field)
                field.isNullable insertExplicit field.type))

/-- One iteration of the flat builder's field loop (lines 252-309).  The
no-domain branch resets and recomputes `max_length` (lines 289-294) with the
same formula used at line 254, so the same `typeDerivedNode` applies. -/
def flatFieldStep (domainsList : List DomainRec)
    (shapeFieldName : Option String) (insertExplicit : Bool)
    (field : FieldRec) : Except PyErr (Option (String × PydTuple)) :=
  match field_type_to_pydantic_dict field.type with
  | none => Except.error (PyErr.keyError field.type)
  | some pydanticFieldType =>
    if shapeMatches shapeFieldName field.name then Except.ok none
    else if field.editable = false then Except.ok none
    else
      match domainPhase domainsList (effectiveDomainName none field.domain)
          field.isNullable insertExplicit (maxLengthOf field) with
      | Except.error e => Except.error e
      | Except.ok (some t) => Except.ok (some (field.name, t))
      | Except.ok none =>
        Except.ok (some (field.name,
          typeDerivedNode pydanticFieldType (maxLengthOf field)
            field.isNullable insertExplicit field.type))

/-- Python dict assignment `d[k] = v`: replace in place when the key exists,
else append. -/
def dictInsert (ps : List (String × PydTuple)) (k : String) (v : PydTuple) :
    List (String × PydTuple) :=
  match ps with
  | [] => [(k, v)]
  | (k0, v0) :: rest =>
    if k0 = k then (k0, v) :: rest else (k0, v0) :: dictInsert rest k v

/-- Python dict lookup by key. -/
def dictLookup (ps : List (String × PydTuple)) (k : String) : Option PydTuple :=
  match ps with
  | [] => none
  | (k0, v0) :: rest => if k0 = k then some v0 else dictLookup rest k

/-- A builder loop over its items: threads the create_model params dict,
stopping at the first exception. -/
def runFieldLoop {α : Type} (step : α → Except PyErr (Option (String × PydTuple))) :
    List α → List (String × PydTuple) →
    Except PyErr (List (String × PydTuple))
  | [], params => Except.ok params
  | x :: rest, params =>
    match step x with
    | Except.error e => Except.error e
    | Except.ok none => runFieldLoop step rest params
    | Except.ok (some (k, v)) => runFieldLoop step rest (dictInsert params k v)

/-- Lines 168-171 / 247-250: the shape field, when present, is inserted into
the params dict before the field loop, as `(Any, Field())`. -/
def initParams (shapeFieldName : Option String) : List (String × PydTuple) :=
  match shapeFieldName with
  | some s => [(s, (PydType.anyType, PydDefault.info emptyField))]
  | none => []

/-- Lines 157-160: resolve the declared subtype field name against the field
list, case-insensitively, keeping the field's own spelling.  `none` models
the Python variable staying unbound. -/
def resolveSubtypeFieldName (desc : TableDesc) : Option String :=
  (desc.fields.find?
    (fun f => casefold f.name == casefold desc.subtypeFieldName)).map
    (fun f => f.name)

/-- Lines 163-237: build one subtype model.  The loop runs over
`zip(subtype_dict["FieldValues"].values(), desc["fields"])` — the FieldValues
entries are consumed positionally, their keys are never read. -/
def buildSubtypeModel (inp : TableInput) (subtypeFieldName : Option String)
    (insertExplicit : Bool) (cst : Value × SubtypeRec) :
    Except PyErr (String × List (String × PydTuple)) :=
  match runFieldLoop
      (fun p => subtypeFieldStep inp.domainsList inp.desc.shapeFieldName
        subtypeFieldName cst.1 insertExplicit p.1 p.2)
      (List.zip (cst.2.fieldValues.map Prod.snd) inp.desc.fields)
      (initParams inp.desc.shapeFieldName) with
  | Except.error e => Except.error e
  | Except.ok ps => Except.ok (inp.tableName ++ "-" ++ cst.2.name, ps)

/-- The `for subtype_code, subtype_dict in subtypes_dict.items()` loop:
builds the subtype models in order, aborting at the first exception. -/
def buildModels (inp : TableInput) (subtypeFieldName : Option String)
    (insertExplicit : Bool) :
    List (Value × SubtypeRec) →
    Except PyErr (List (String × List (String × PydTuple)))
  | [] => Except.ok []
  | cst :: rest =>
    match buildSubtypeModel inp subtypeFieldName insertExplicit cst with
    | Except.error e => Except.error e
    | Except.ok m =>
      match buildModels inp subtypeFieldName insertExplicit rest with
      | Except.error e => Except.error e
      | Except.ok ms => Except.ok (m :: ms)

/-- The body of the `try` block of make_table_adapter (lines 145-313), after
the external metadata reads have produced a TableInput.  In the subtyped
branch, line 238 evaluates `Union[tuple(subtype_models)]` (TypeError when the
tuple is empty) before `Field(discriminator=subtype_field_name)` (NameError
when the variable is unbound). -/
def make_table_adapter_core (inp : TableInput) (insertExplicit : Bool) :
    Except PyErr TableModel :=
  if inp.desc.subtypeFieldName ≠ "" then
    match buildModels inp (resolveSubtypeFieldName inp.desc) insertExplicit
        inp.subtypes with
    | Except.error e => Except.error e
    | Except.ok models =>
      if models.isEmpty then
        Except.error (PyErr.typeError "Cannot take a Union of no types.")
      else
        match resolveSubtypeFieldName inp.desc with
        | none => Except.error (PyErr.nameError "subtype_field_name")
        | some sfn => Except.ok (TableModel.union sfn models)
  else
    match runFieldLoop
        (flatFieldStep inp.domainsList inp.desc.shapeFieldName insertExplicit)
        inp.desc.fields (initParams inp.desc.shapeFieldName) with
    | Except.error e => Except.error e
    | Except.ok ps => Except.ok (TableModel.flat inp.tableName ps)

/-- `make_table_adapter` (lines 122-316).  The argument `fetch` stands for
the outcome of the external metadata reads (`arcpy.da.ListDomains`,
`arcpy.da.Describe`, `arcpy.da.ListSubtypes`), which execute inside the same
`try`.  Lines 314-316 catch every exception, log it, and fall off the end of
the function — i.e. return None. -/
def make_table_adapter (fetch : Except PyErr TableInput)
    (insertExplicit : Bool) : Option TableModel :=
  match (match fetch with
    | Except.error e => Except.error e
    | Except.ok inp => make_table_adapter_core inp insertExplicit) with
  | Except.ok m => some m
  | Except.error _ => none

/-- A node has a default under pydantic when the tuple's second slot is a raw
default value or a `Field` with a default_factory. -/
def PydDefault.hasDefault : PydDefault → Bool
  | PydDefault.info fi => fi.defaultNone
  | PydDefault.value _ => true

/-- pydantic marks a field required exactly when it has neither default nor
default_factory. -/
def nodeRequired (t : PydTuple) : Bool := !t.2.hasDefault

/-- The node's annotation is the `Optional[...]` wrapper (the structural
"nullable" attribute of the derived schema node). -/
def nodeStructNullable : PydType → Bool
  | PydType.optional _ => true
  | _ => false

/-- Whether the annotation accepts the value None under pydantic validation:
`Optional[T]` is `Union[T, None]`; `Any` accepts every value including None;
a `Literal` accepts None only when None is among its values; the concrete
scalar annotations reject None. -/
def acceptsNone : PydType → Bool
  | PydType.optional _ => true
  | PydType.anyType => true
  | PydType.literal cs => cs.contains Value.vNone
  | _ => false

/-- The node carries the synthesized null default `default_factory=lambda:
None`. -/
def hasNoneDefaultFactory (t : PydTuple) : Bool :=
  match t.2 with
  | PydDefault.info fi => fi.defaultNone
  | PydDefault.value _ => false

/-- The `max_length` bound carried by the node, if any. -/
def nodeMaxLength (t : PydTuple) : Option Nat :=
  match t.2 with
  | PydDefault.info fi => fi.maxLength
  | PydDefault.value _ => none

/-- The enumerated literal set of the node's annotation, when it has one
(also under the `Optional` wrapper). -/
def literalCodes : PydType → Option (List Value)
  | PydType.literal cs => some cs
  | PydType.optional t => literalCodes t
  | _ => none

instance {ε α : Type} [DecidableEq ε] [DecidableEq α] :
    DecidableEq (Except ε α) := fun a b =>
  match a, b with
  | Except.ok x, Except.ok y =>
    if h : x = y then isTrue (by rw [h]) else isFalse (by simp [h])
  | Except.ok _, Except.error _ => isFalse (by simp)
  | Except.error _, Except.ok _ => isFalse (by simp)
  | Except.error x, Except.error y =>
    if h : x = y then isTrue (by rw [h]) else isFalse (by simp [h])

/-- The create_model params of every record model inside the output. -/
def TableModel.paramsList : TableModel → List (List (String × PydTuple))
  | TableModel.flat _ ps => [ps]
  | TableModel.union _ ms => ms.map Prod.snd

/-- The keys of a params dict. -/
def paramKeys (ps : List (String × PydTuple)) : List String :=
  ps.map Prod.fst

/- Concrete test tables used by the claim theorems below. -/

/-- A subtyped table whose discriminator field TYPE declares the coded-value
domain TypeCodes (codes 1 and 2), with subtypes 1 → A and 2 → B. -/
def discrimDomainInput : TableInput :=
  { tableName := "t"
    desc := { fields := [{ name := "TYPE", type := "Long", isNullable := false,
                           editable := true, length := 0, domain := "TypeCodes" }]
              shapeFieldName := none
              subtypeFieldName := "TYPE" }
    domainsList := [{ name := "TypeCodes", domainType := "CodedValue",
                      codedValues := some [Value.vInt 1, Value.vInt 2],
                      range := (none, none), type := "Long" }]
    subtypes := [(Value.vInt 1,
                   { name := "A", fieldValues := [("TYPE", (some (Value.vInt 1), none))] }),
                 (Value.vInt 2,
                   { name := "B", fieldValues := [("TYPE", (some (Value.vInt 2), none))] })] }

/-- A subtyped table whose declared subtype field name matches no field, so
the Python variable `subtype_field_name` stays unbound and its first use
raises NameError. -/
def unboundSubtypeFieldInput : TableInput :=
  { tableName := "t"
    desc := { fields := [{ name := "STATUS", type := "Long", isNullable := false,
                           editable := true, length := 0, domain := "" }]
              shapeFieldName := none
              subtypeFieldName := "TYPE" }
    domainsList := []
    subtypes := [(Value.vInt 1,
                   { name := "A", fieldValues := [("STATUS", (none, none))] })] }

/-- A flat table with one field of type BigInteger — a type present in
`field_type_min_max` but absent from `field_type_to_pydantic_dict`. -/
def bigIntegerInput : TableInput :=
  { tableName := "t"
    desc := { fields := [{ name := "BIGVAL", type := "BigInteger",
                           isNullable := false, editable := true, length := 0,
                           domain := "" }]
              shapeFieldName := none, subtypeFieldName := "" }
    domainsList := [], subtypes := [] }

/-- A flat feature class whose only field is the (non-editable) geometry
field Shape. -/
def shapeOnlyInput : TableInput :=
  { tableName := "t"
    desc := { fields := [{ name := "Shape", type := "Geometry", isNullable := true,
                           editable := false, length := 0, domain := "" }]
              shapeFieldName := some "Shape", subtypeFieldName := "" }
    domainsList := [], subtypes := [] }

/-- A flat feature class with a non-editable geometry field Shape and one
ordinary field, used against the editable-exclusion invariant. -/
def nonEditableShapeInput : TableInput :=
  { tableName := "t"
    desc := { fields := [{ name := "Shape", type := "Geometry", isNullable := true,
                           editable := false, length := 0, domain := "" },
                         { name := "NAME", type := "String", isNullable := false,
                           editable := true, length := 5, domain := "" }]
              shapeFieldName := some "Shape", subtypeFieldName := "" }
    domainsList := [], subtypes := [] }

/-- A flat table with a Text field of declared length 10 and no domain. -/
def textFieldInput : TableInput :=
  { tableName := "t"
    desc := { fields := [{ name := "NOTES", type := "Text", isNullable := false,
                           editable := true, length := 10, domain := "" }]
              shapeFieldName := none, subtypeFieldName := "" }
    domainsList := [], subtypes := [] }

/-- A subtyped table whose subtype's FieldValues dict enumerates the fields
in the opposite order of the table's field list: the entry keyed STATUS
(carrying the StatusCodes domain override) comes first, while the field list
starts with TYPE. -/
def swappedOrderInput : TableInput :=
  { tableName := "t"
    desc := { fields := [{ name := "TYPE", type := "Long", isNullable := false,
                           editable := true, length := 0, domain := "" },
                         { name := "STATUS", type := "Long", isNullable := false,
                           editable := true, length := 0, domain := "" }]
              shapeFieldName := none, subtypeFieldName := "TYPE" }
    domainsList := [{ name := "StatusCodes", domainType := "CodedValue",
                      codedValues := some [Value.vInt 7], range := (none, none),
                      type := "Long" }]
    subtypes := [(Value.vInt 1,
      { name := "A",
        fieldValues := [("STATUS", (none, some "StatusCodes")),
                        ("TYPE", (none, none))] })] }

/-- A coded-value domain whose code set is empty. -/
def emptyCodedDomain : DomainRec :=
  { name := "EmptyDom", domainType := "CodedValue", codedValues := some [],
    range := (none, none), type := "Long" }

/-- A field declaring the empty coded-value domain. -/
def emptyCodedField : FieldRec :=
  { name := "CODE", type := "Long", isNullable := false, editable := true,
    length := 0, domain := "EmptyDom" }

/-- A field declaring a domain name that is absent from the catalog. -/
def missLookupField : FieldRec :=
  { name := "CODE", type := "Long", isNullable := false, editable := true,
    length := 0, domain := "Missing" }

/-- A plain non-nullable Long field with no domain. -/
def plainLongField : FieldRec :=
  { name := "N", type := "Long", isNullable := false, editable := true,
    length := 0, domain := "" }

/-- The node the flat builder derives for `plainLongField` in strict mode. -/
def plainLongNode : PydTuple :=
  (PydType.intType, PydDefault.info
    { defaultNone := false, maxLength := none,
      ge := some ((-2147483648 : ℚ)), le := some ((2147483647 : ℚ)) })

/-- The Text field of `textFieldInput`. -/
def textWitnessField : FieldRec :=
  { name := "NOTES", type := "Text", isNullable := false, editable := true,
    length := 10, domain := "" }

/-- The node the flat builder derives for `textWitnessField` in strict
mode. -/
def textWitnessNode : PydTuple :=
  (PydType.strType, PydDefault.info
    { defaultNone := false, maxLength := none, ge := none, le := none })

/-- The `(Any, Field())` node given to the shape field. -/
def shapeNode : PydTuple := (PydType.anyType, PydDefault.info emptyField)

/-- The scalar-type mapping never yields an Optional annotation. -/
theorem field_type_dict_not_optional {s : String} {t : PydType}
    (h : field_type_to_pydantic_dict s = some t) :
    nodeStructNullable t = false := by
  unfold field_type_to_pydantic_dict at h
  cases hf : field_type_to_pydantic_entries.find? (fun p => p.1 == s) with
  | none => rw [hf] at h; exact Option.noConfusion h
  | some p =>
    rw [hf] at h
    injection h with h
    subst h
    have hmem : p ∈ field_type_to_pydantic_entries :=
      List.mem_of_find?_eq_some hf
    have hall : field_type_to_pydantic_entries.all
        (fun q => !nodeStructNullable q.2) = true := by decide
    have := List.all_eq_true.mp hall p hmem
    simpa using this


/-- The scalar-type mapping never yields a Literal annotation. -/
theorem field_type_dict_no_literal {s : String} {t : PydType}
    (h : field_type_to_pydantic_dict s = some t) :
    literalCodes t = none := by
  unfold field_type_to_pydantic_dict at h
  cases hf : field_type_to_pydantic_entries.find? (fun p => p.1 == s) with
  | none => rw [hf] at h; exact Option.noConfusion h
  | some p =>
    rw [hf] at h
    injection h with h
    subst h
    have hmem : p ∈ field_type_to_pydantic_entries :=
      List.mem_of_find?_eq_some hf
    have hall : field_type_to_pydantic_entries.all
        (fun q => (literalCodes q.2).isNone) = true := by decide
    have := List.all_eq_true.mp hall p hmem
    simpa [Option.isNone_iff_eq_none] using this


/-- A produced domain tuple always comes from make_domain_tuple on some name. -/
theorem domainPhase_ok_some {dl : List DomainRec} {dno : Option String}
    {nullable strict : Bool} {ml : Option Nat} {t : PydTuple}
    (h : domainPhase dl dno nullable strict ml = Except.ok (some t)) :
    ∃ dn, make_domain_tuple dl dn nullable strict ml = Except.ok (some t) := by
  cases dno with
  | none => simp [domainPhase] at h
  | some dn => exact ⟨dn, h⟩


/-- Nullability policy of both make_domain_tuple branches (lines 94-115). -/
theorem make_domain_tuple_policy {dl : List DomainRec} {dn : String}
    {nullable strict : Bool} {ml : Option Nat} {t : PydTuple}
    (h : make_domain_tuple dl dn nullable strict ml = Except.ok (some t)) :
    ((nullable = false ∧ strict = true) →
      nodeRequired t = true ∧ nodeStructNullable t.1 = false ∧
        hasNoneDefaultFactory t = false) ∧
    (¬(nullable = false ∧ strict = true) →
      nodeRequired t = false ∧ acceptsNone t.1 = true ∧
        hasNoneDefaultFactory t = true) := by
  unfold make_domain_tuple at h
  split at h
  · exact absurd h (by simp)
  next d heq =>
    split at h
    · split at h
      · exact absurd h (by simp)
      next codes hcv =>
        split at h
        · exact absurd h (by simp)
        · split at h
          next hcond =>
            injection h with h
            injection h with h
            subst h
            cases nullable <;> cases strict <;>
              simp_all [nodeRequired, nodeStructNullable, acceptsNone,
                hasNoneDefaultFactory, PydDefault.hasDefault, emptyField]
          next hcond =>
            injection h with h
            injection h with h
            subst h
            cases nullable <;> cases strict <;>
              simp_all [nodeRequired, nodeStructNullable, acceptsNone,
                hasNoneDefaultFactory, PydDefault.hasDefault, emptyField]
    · split at h
      · exact absurd h (by simp)
      next pft hft =>
        have hnop : nodeStructNullable pft = false :=
          field_type_dict_not_optional hft
        split at h
        next hcond =>
          injection h with h
          injection h with h
          subst h
          cases nullable <;> cases strict <;>
            simp_all [nodeRequired, nodeStructNullable, acceptsNone,
              hasNoneDefaultFactory, PydDefault.hasDefault]
        next hcond =>
          injection h with h
          injection h with h
          subst h
          cases nullable <;> cases strict <;>
            simp_all [nodeRequired, nodeStructNullable, acceptsNone,
              hasNoneDefaultFactory, PydDefault.hasDefault]


/-- Nullability policy of the type-derived branch (lines 222-232, 298-308). -/
theorem typeDerivedNode_policy {pft : PydType} (ml : Option Nat)
    (nullable strict : Bool) (ftype : String)
    (hnop : nodeStructNullable pft = false) :
    ((nullable = false ∧ strict = true) →
      nodeRequired (typeDerivedNode pft ml nullable strict ftype) = true ∧
      nodeStructNullable (typeDerivedNode pft ml nullable strict ftype).1 = false ∧
      hasNoneDefaultFactory (typeDerivedNode pft ml nullable strict ftype) = false) ∧
    (¬(nullable = false ∧ strict = true) →
      nodeRequired (typeDerivedNode pft ml nullable strict ftype) = false ∧
      acceptsNone (typeDerivedNode pft ml nullable strict ftype).1 = true ∧
      hasNoneDefaultFactory (typeDerivedNode pft ml nullable strict ftype) = true) := by
  cases nullable <;> cases strict <;>
    simp_all [typeDerivedNode, nodeRequired, nodeStructNullable, acceptsNone,
      hasNoneDefaultFactory, PydDefault.hasDefault]


/-- The type-derived node carries exactly the max_length it was given. -/
theorem typeDerivedNode_maxLength (pft : PydType) (ml : Option Nat)
    (n s : Bool) (ft : String) :
    nodeMaxLength (typeDerivedNode pft ml n s ft) = ml := by
  cases n <;> cases s <;> simp [typeDerivedNode, nodeMaxLength]


/-- A failed case-insensitive shape comparison separates the names. -/
theorem shapeMatches_false_ne {s n : String}
    (h : shapeMatches (some s) n = false) : n ≠ s := by
  intro he
  subst he
  simp [shapeMatches] at h


/-- Inserting under a different key preserves a dict lookup. -/
theorem dictLookup_dictInsert_ne {ps : List (String × PydTuple)}
    {k s : String} (v : PydTuple) (h : k ≠ s) :
    dictLookup (dictInsert ps k v) s = dictLookup ps s := by
  induction ps with
  | nil => simp [dictInsert, dictLookup, h]
  | cons p rest ih =>
    obtain ⟨k0, v0⟩ := p
    simp only [dictInsert]
    by_cases hk : k0 = k
    · rw [if_pos hk]
      have hks : ¬k0 = s := by rw [hk]; exact h
      simp only [dictLookup, if_neg hks]
    · rw [if_neg hk]
      by_cases hs0 : k0 = s
      · simp only [dictLookup, if_pos hs0]
      · simp only [dictLookup, if_neg hs0]
        exact ih


/-- Keys after a dict insert: the new key or an old key. -/
theorem paramKeys_dictInsert {ps : List (String × PydTuple)}
    {k k' : String} {v : PydTuple}
    (h : k' ∈ paramKeys (dictInsert ps k v)) : k' = k ∨ k' ∈ paramKeys ps := by
  induction ps with
  | nil =>
    simp only [dictInsert, paramKeys, List.map_cons, List.map_nil,
      List.mem_singleton] at h
    exact Or.inl h
  | cons p rest ih =>
    obtain ⟨k0, v0⟩ := p
    simp only [dictInsert, paramKeys] at h ⊢
    by_cases hk : k0 = k
    · rw [if_pos hk] at h
      simp only [List.map_cons, List.mem_cons] at h ⊢
      rcases h with he | hm
      · exact Or.inl (by rw [he, hk])
      · exact Or.inr (Or.inr hm)
    · rw [if_neg hk] at h
      simp only [List.map_cons, List.mem_cons] at h ⊢
      rcases h with he | hm
      · exact Or.inr (Or.inl he)
      · rcases ih (by simpa [paramKeys] using hm) with he | hm2
        · exact Or.inl he
        · exact Or.inr (Or.inr (by simpa [paramKeys] using hm2))


/-- An inserted subtype-loop entry is keyed by an editable, non-shape field. -/
theorem subtypeFieldStep_ok_some {dl : List DomainRec}
    {shape stf : Option String} {code : Value} {strict : Bool}
    {st : Option Value × Option String} {f : FieldRec} {k : String} {v : PydTuple}
    (h : subtypeFieldStep dl shape stf code strict st f = Except.ok (some (k, v))) :
    k = f.name ∧ f.editable = true ∧ shapeMatches shape f.name = false := by
  unfold subtypeFieldStep at h
  split at h
  · exact absurd h (by simp)
  next pft hpf =>
    split at h
    next hsm => exact absurd h (by simp)
    next hsm =>
      split at h
      next hed => exact absurd h (by simp)
      next hed =>
        have hsm' : shapeMatches shape f.name = false := by
          simpa using hsm
        have hed' : f.editable = true := by
          simpa using hed
        refine ⟨?_, hed', hsm'⟩
        split at h
        · exact absurd h (by simp)
        next t0 hdp =>
          injection h with h
          injection h with h
          exact (congrArg Prod.fst h).symm
        next hdp =>
          split at h
          · exact absurd h (by simp)
          next sfn =>
            split at h
            · injection h with h
              injection h with h
              exact (congrArg Prod.fst h).symm
            · injection h with h
              injection h with h
              exact (congrArg Prod.fst h).symm


/-- An inserted flat-loop entry is keyed by an editable, non-shape field. -/
theorem flatFieldStep_ok_some {dl : List DomainRec}
    {shape : Option String} {strict : Bool}
    {f : FieldRec} {k : String} {v : PydTuple}
    (h : flatFieldStep dl shape strict f = Except.ok (some (k, v))) :
    k = f.name ∧ f.editable = true ∧ shapeMatches shape f.name = false := by
  unfold flatFieldStep at h
  split at h
  · exact absurd h (by simp)
  next pft hpf =>
    split at h
    next hsm => exact absurd h (by simp)
    next hsm =>
      split at h
      next hed => exact absurd h (by simp)
      next hed =>
        have hsm' : shapeMatches shape f.name = false := by
          simpa using hsm
        have hed' : f.editable = true := by
          simpa using hed
        refine ⟨?_, hed', hsm'⟩
        split at h
        · exact absurd h (by simp)
        next t0 hdp =>
          injection h with h
          injection h with h
          exact (congrArg Prod.fst h).symm
        next hdp =>
          injection h with h
          injection h with h
          exact (congrArg Prod.fst h).symm


/-- A field loop whose steps never touch key s preserves its binding. -/
theorem runFieldLoop_lookup_preserved {α : Type}
    {step : α → Except PyErr (Option (String × PydTuple))} {s : String}
    (hstep : ∀ x k v, step x = Except.ok (some (k, v)) → k ≠ s) :
    ∀ {items : List α} {params ps : List (String × PydTuple)},
      runFieldLoop step items params = Except.ok ps →
      dictLookup ps s = dictLookup params s := by
  intro items
  induction items with
  | nil =>
    intro params ps h
    unfold runFieldLoop at h
    injection h with h
    subst h
    rfl
  | cons x rest ih =>
    intro params ps h
    unfold runFieldLoop at h
    split at h
    · exact absurd h (by simp)
    · exact ih h
    next k0 v0 hstep0 =>
      rw [ih h]
      exact dictLookup_dictInsert_ne v0 (hstep x k0 v0 hstep0)


/-- Every key after a field loop satisfies the step-key invariant. -/
theorem runFieldLoop_keys {α : Type}
    {step : α → Except PyErr (Option (String × PydTuple))}
    {P : String → Prop} :
    ∀ {items : List α} {params ps : List (String × PydTuple)},
      (∀ x ∈ items, ∀ k v, step x = Except.ok (some (k, v)) → P k) →
      (∀ k ∈ paramKeys params, P k) →
      runFieldLoop step items params = Except.ok ps →
      ∀ k ∈ paramKeys ps, P k := by
  intro items
  induction items with
  | nil =>
    intro params ps hstep hpar h k hk
    unfold runFieldLoop at h
    injection h with h
    subst h
    exact hpar k hk
  | cons x rest ih =>
    intro params ps hstep hpar h k hk
    unfold runFieldLoop at h
    split at h
    · exact absurd h (by simp)
    · exact ih (fun y hy => hstep y (List.mem_cons_of_mem _ hy)) hpar h k hk
    next k0 v0 hstep0 =>
      refine ih (fun y hy => hstep y (List.mem_cons_of_mem _ hy)) ?_ h k hk
      intro k1 hk1
      rcases paramKeys_dictInsert hk1 with rfl | hk1
      · exact hstep x (List.mem_cons_self x rest) k1 v0 hstep0
      · exact hpar k1 hk1


/-- Each assembled subtype model comes from one subtypes entry. -/
theorem buildModels_mem {inp : TableInput} {stf : Option String} {strict : Bool} :
    ∀ {sts : List (Value × SubtypeRec)}
      {models : List (String × List (String × PydTuple))},
      buildModels inp stf strict sts = Except.ok models →
      ∀ m ∈ models, ∃ cst, cst ∈ sts ∧
        buildSubtypeModel inp stf strict cst = Except.ok m := by
  intro sts
  induction sts with
  | nil =>
    intro models h m hm
    unfold buildModels at h
    injection h with h
    subst h
    cases hm
  | cons cst rest ih =>
    intro models h m hm
    unfold buildModels at h
    split at h
    · exact absurd h (by simp)
    next m0 hb =>
      split at h
      · exact absurd h (by simp)
      next ms hrest =>
        injection h with h
        subst h
        rcases List.mem_cons.mp hm with rfl | hm2
        · exact ⟨cst, List.mem_cons_self cst rest, hb⟩
        · obtain ⟨c, hc, hbc⟩ := ih hrest m hm2
          exact ⟨c, List.mem_cons_of_mem _ hc, hbc⟩


/-- A found coded-value domain with empty code set yields None (lines 90-93). -/
theorem mdt_empty_coded (dl : List DomainRec) (dn : String) (n s : Bool)
    (ml : Option Nat) (d : DomainRec) (hfind : findDomain dl dn = some d)
    (hct : d.domainType = "CodedValue") (hcv : d.codedValues = some []) :
    make_domain_tuple dl dn n s ml = Except.ok none := by
  simp [make_domain_tuple, hfind, hct, hcv]


/-- A domain name absent from the catalog yields None, no exception (86-88). -/
theorem mdt_not_found (dl : List DomainRec) (dn : String) (n s : Bool)
    (ml : Option Nat) (hfind : findDomain dl dn = none) :
    make_domain_tuple dl dn n s ml = Except.ok none := by
  simp [make_domain_tuple, hfind]


/-- The subtype step when the domain phase produced no tuple. -/
theorem subtypeFieldStep_eval_nodomain (dl : List DomainRec)
    (shape stf : Option String) (code : Value) (strict : Bool)
    (st : Option Value × Option String) (f : FieldRec)
    (hdp : domainPhase dl (effectiveDomainName st.2 f.domain) f.isNullable
      strict (maxLengthOf f) = Except.ok none) :
    subtypeFieldStep dl shape stf code strict st f =
      match field_type_to_pydantic_dict f.type with
      | none => Except.error (PyErr.keyError f.type)
      | some pft =>
        if shapeMatches shape f.name then Except.ok none
        else if f.editable = false then Except.ok none
        else
          match stf with
          | none => Except.error (PyErr.nameError "subtype_field_name")
          | some sfn =>
            if f.name = sfn then
              Except.ok (some (f.name,
                (PydType.literal [code], PydDefault.value code)))
            else
              Except.ok (some (f.name,
                typeDerivedNode pft (maxLengthOf f) f.isNullable strict
                  f.type)) := by
  unfold subtypeFieldStep
  cases hpf : field_type_to_pydantic_dict f.type with
  | none => rfl
  | some pft => rw [hdp]


/-- The flat step when the domain phase produced no tuple. -/
theorem flatFieldStep_eval_nodomain (dl : List DomainRec)
    (shape : Option String) (strict : Bool) (f : FieldRec)
    (hdp : domainPhase dl (effectiveDomainName none f.domain) f.isNullable
      strict (maxLengthOf f) = Except.ok none) :
    flatFieldStep dl shape strict f =
      match field_type_to_pydantic_dict f.type with
      | none => Except.error (PyErr.keyError f.type)
      | some pft =>
        if shapeMatches shape f.name then Except.ok none
        else if f.editable = false then Except.ok none
        else
          Except.ok (some (f.name,
            typeDerivedNode pft (maxLengthOf f) f.isNullable strict
              f.type)) := by
  unfold flatFieldStep
  cases hpf : field_type_to_pydantic_dict f.type with
  | none => rfl
  | some pft => rw [hdp]


/-- With a tupleless domain, the subtype step treats the field as domainless. -/
theorem subtypeFieldStep_equiv_nodomain (dl : List DomainRec)
    (shape stf : Option String) (code : Value) (strict : Bool)
    (dv : Option Value) (dn : String) (f : FieldRec)
    (hnone : ∀ ml, make_domain_tuple dl dn f.isNullable strict ml =
      Except.ok none) :
    subtypeFieldStep dl shape stf code strict (dv, some dn) f =
    subtypeFieldStep dl shape stf code strict (dv, none)
      { f with domain := "" } := by
  have h1 : domainPhase dl (effectiveDomainName ((dv, some dn)).2 f.domain)
      f.isNullable strict (maxLengthOf f) = Except.ok none := by
    simpa [effectiveDomainName, domainPhase] using hnone (maxLengthOf f)
  have h2 : domainPhase dl
      (effectiveDomainName ((dv, (none : Option String))).2
        ({ f with domain := "" } : FieldRec).domain)
      ({ f with domain := "" } : FieldRec).isNullable strict
      (maxLengthOf { f with domain := "" }) = Except.ok none := by
    simp [effectiveDomainName, domainPhase]
  rw [subtypeFieldStep_eval_nodomain dl shape stf code strict _ _ h1,
      subtypeFieldStep_eval_nodomain dl shape stf code strict _ _ h2]
  rfl


/-- With a tupleless domain, the flat step treats the field as domainless. -/
theorem flatFieldStep_equiv_nodomain (dl : List DomainRec)
    (shape : Option String) (strict : Bool) (f : FieldRec)
    (hnone : ∀ ml, make_domain_tuple dl f.domain f.isNullable strict ml =
      Except.ok none) :
    flatFieldStep dl shape strict f =
    flatFieldStep dl shape strict { f with domain := "" } := by
  have h1 : domainPhase dl (effectiveDomainName none f.domain)
      f.isNullable strict (maxLengthOf f) = Except.ok none := by
    by_cases hd : f.domain = ""
    · simp [effectiveDomainName, domainPhase, hd]
    · simp [effectiveDomainName, domainPhase, hd, hnone]
  have h2 : domainPhase dl
      (effectiveDomainName none ({ f with domain := "" } : FieldRec).domain)
      ({ f with domain := "" } : FieldRec).isNullable strict
      (maxLengthOf { f with domain := "" }) = Except.ok none := by
    simp [effectiveDomainName, domainPhase]
  rw [flatFieldStep_eval_nodomain dl shape strict _ h1,
      flatFieldStep_eval_nodomain dl shape strict _ h2]
  rfl


/-- Any literal set inside a produced domain tuple is non-empty. -/
theorem mdt_applied_coded_nonempty {dl : List DomainRec} {dn : String}
    {n s : Bool} {ml : Option Nat} {t : PydTuple} {cs : List Value}
    (h : make_domain_tuple dl dn n s ml = Except.ok (some t))
    (hlit : literalCodes t.1 = some cs) : cs ≠ [] := by
  unfold make_domain_tuple at h
  split at h
  · exact absurd h (by simp)
  next d heq =>
    split at h
    · split at h
      · exact absurd h (by simp)
      next codes hcv =>
        split at h
        · exact absurd h (by simp)
        next hlen =>
          split at h
          · injection h with h
            injection h with h
            subst h
            simp only [literalCodes] at hlit
            injection hlit with hlit
            subst hlit
            intro hnil
            exact hlen (by simp [hnil])
          · injection h with h
            injection h with h
            subst h
            simp only [literalCodes] at hlit
            injection hlit with hlit
            subst hlit
            intro hnil
            exact hlen (by simp [hnil])
    · split at h
      · exact absurd h (by simp)
      next pft hft =>
        have hnl : literalCodes pft = none := field_type_dict_no_literal hft
        split at h
        · injection h with h
          injection h with h
          subst h
          simp only [literalCodes] at hlit
          rw [hnl] at hlit
          exact absurd hlit (by simp)
        · injection h with h
          injection h with h
          subst h
          simp only [literalCodes] at hlit
          rw [hnl] at hlit
          exact absurd hlit (by simp)


/-- buildSubtypeModel reads only the values of FieldValues, never its keys. -/
theorem buildSubtypeModel_ignores_value_keys (inp : TableInput) (stf : Option String)
    (strict : Bool) (code : Value) (snm : String)
    (kvs1 kvs2 : List (String × (Option Value × Option String)))
    (hvals : kvs1.map Prod.snd = kvs2.map Prod.snd) :
    buildSubtypeModel inp stf strict (code, { name := snm, fieldValues := kvs1 }) =
    buildSubtypeModel inp stf strict (code, { name := snm, fieldValues := kvs2 }) := by
  unfold buildSubtypeModel
  dsimp only
  rw [hvals]


/-- C1: the claim says synthesis failures propagate to the caller as a
distinguishable failure and that make_table_adapter never silently returns a
None result.  In the code the opposite holds: the top-level
`except Exception` (lines 314-316) turns every failure — a metadata-read
failure as well as any internal exception — into a logged message and an
implicit `return None`. -/
theorem c1_failures_swallowed_to_none :
    (∀ (e : PyErr) (strict : Bool),
      make_table_adapter (Except.error e) strict = none) ∧
    (∀ (inp : TableInput) (strict : Bool) (e : PyErr),
      make_table_adapter_core inp strict = Except.error e →
      make_table_adapter (Except.ok inp) strict = none) := by
  constructor
  · intro e strict; rfl
  · intro inp strict e h
    simp [make_table_adapter, h]

/-- Witness for C1: a concrete table whose declared subtype field matches no
field; synthesis raises NameError internally and the caller receives None. -/
theorem c1_failures_swallowed_to_none_witness :
    make_table_adapter (Except.ok unboundSubtypeFieldInput) true = none :=
  c1_failures_swallowed_to_none.2 unboundSubtypeFieldInput true
    (PyErr.nameError "subtype_field_name") (by decide)

/-- C2: on a subtyped table whose discriminator field TYPE carries a usable
coded-value domain, both subtype models receive the domain-derived node
`Literal[1, 2]` for TYPE — not the pinned single-valued literal of that
subtype's code.  The domain, not the pinned literal, takes precedence
(lines 203-215 try the domain first and only fall back to the pinned
literal when no domain tuple was produced). -/
theorem c2_domain_node_shadows_pinned_literal :
    make_table_adapter (Except.ok discrimDomainInput) true =
      some (TableModel.union "TYPE"
        [("t-A", [("TYPE", (PydType.literal [Value.vInt 1, Value.vInt 2],
                    PydDefault.info emptyField))]),
         ("t-B", [("TYPE", (PydType.literal [Value.vInt 1, Value.vInt 2],
                    PydDefault.info emptyField))])]) ∧
    PydType.literal [Value.vInt 1, Value.vInt 2] ≠ PydType.literal [Value.vInt 1] := by
  decide

/-- C4: a field whose type BigInteger is missing from
field_type_to_pydantic_dict raises KeyError inside synthesis, but the
top-level handler swallows it: the caller gets None, not a surfaced
configuration error. -/
theorem c4_unmapped_type_error_swallowed :
    make_table_adapter_core bigIntegerInput true =
      Except.error (PyErr.keyError "BigInteger") ∧
    make_table_adapter (Except.ok bigIntegerInput) true = none := by
  decide

/-- C5 counterexample: the geometry field's node is `(Any, Field())`; under
pydantic the annotation `Any` accepts an explicit null, so a record
supplying None for the shape field validates, contradicting the claim that
the node rejects null. -/
theorem c5_counterexample_shape_accepts_null :
    make_table_adapter (Except.ok shapeOnlyInput) true =
      some (TableModel.flat "t"
        [("Shape", (PydType.anyType, PydDefault.info emptyField))]) ∧
    acceptsNone PydType.anyType = true := by
  decide

/-- C6 counterexample: a Text field of declared length 10 with no domain gets
a plain string node with no max_length bound — only String-typed fields
receive the length bound (lines 254, 293). -/
theorem c6_counterexample_text_unbounded :
    make_table_adapter (Except.ok textFieldInput) true =
      some (TableModel.flat "t"
        [("NOTES", (PydType.strType,
            PydDefault.info
              { defaultNone := false, maxLength := none, ge := none, le := none }))]) ∧
    textFieldInput.desc.fields.map FieldRec.length = [10] ∧
    textFieldInput.desc.fields.map FieldRec.type = ["Text"] := by
  decide

/-- C9 counterexample: the shape field is inserted into the schema before the
field loop without consulting its editable flag, so a non-editable Shape
field appears in the derived RecordSchema. -/
theorem c9_counterexample_shape_not_editable :
    make_table_adapter (Except.ok nonEditableShapeInput) true =
      some (TableModel.flat "t"
        [("Shape", (PydType.anyType, PydDefault.info emptyField)),
         ("NAME", (PydType.strType,
            PydDefault.info
              { defaultNone := false, maxLength := some 5, ge := none, le := none }))]) ∧
    nonEditableShapeInput.desc.fields.map FieldRec.editable = [false, true] := by
  decide


/-- C3: for every non-discriminator field, in every derivation branch of both
builders (coded-value domain, range domain, or no domain): a non-nullable
field under strict mode gets a required, non-Optional node with no
synthesized default; otherwise the node is not required, accepts null, and
carries the null default factory. -/
theorem c3_strictness_resolution
    (dl : List DomainRec) (shape stf : Option String) (code : Value)
    (strict : Bool) (st : Option Value × Option String)
    (f : FieldRec) (k : String) (t : PydTuple)
    (hnotdisc : ∀ sfn, stf = some sfn → f.name ≠ sfn)
    (h : subtypeFieldStep dl shape stf code strict st f = Except.ok (some (k, t)) ∨
         flatFieldStep dl shape strict f = Except.ok (some (k, t))) :
    ((f.isNullable = false ∧ strict = true) →
      nodeRequired t = true ∧ nodeStructNullable t.1 = false ∧
        hasNoneDefaultFactory t = false) ∧
    (¬(f.isNullable = false ∧ strict = true) →
      nodeRequired t = false ∧ acceptsNone t.1 = true ∧
        hasNoneDefaultFactory t = true) := by
  rcases h with h | h
  · unfold subtypeFieldStep at h
    split at h
    · exact absurd h (by simp)
    next pft hpf =>
      split at h
      · exact absurd h (by simp)
      · split at h
        · exact absurd h (by simp)
        · split at h
          · exact absurd h (by simp)
          next t0 hdp =>
            injection h with h
            injection h with h
            have ht : t0 = t := congrArg Prod.snd h
            subst ht
            obtain ⟨dn, hmdt⟩ := domainPhase_ok_some hdp
            exact make_domain_tuple_policy hmdt
          next hdp =>
            split at h
            · exact absurd h (by simp)
            next sfn =>
              split at h
              next heqn =>
                exact absurd heqn (hnotdisc sfn rfl)
              next hne =>
                injection h with h
                injection h with h
                have ht : typeDerivedNode pft (maxLengthOf f) f.isNullable strict f.type = t :=
                  congrArg Prod.snd h
                subst ht
                exact typeDerivedNode_policy _ _ _ _ (field_type_dict_not_optional hpf)
  · unfold flatFieldStep at h
    split at h
    · exact absurd h (by simp)
    next pft hpf =>
      split at h
      · exact absurd h (by simp)
      · split at h
        · exact absurd h (by simp)
        · split at h
          · exact absurd h (by simp)
          next t0 hdp =>
            injection h with h
            injection h with h
            have ht : t0 = t := congrArg Prod.snd h
            subst ht
            obtain ⟨dn, hmdt⟩ := domainPhase_ok_some hdp
            exact make_domain_tuple_policy hmdt
          next hdp =>
            injection h with h
            injection h with h
            have ht : typeDerivedNode pft (maxLengthOf f) f.isNullable strict f.type = t :=
              congrArg Prod.snd h
            subst ht
            exact typeDerivedNode_policy _ _ _ _ (field_type_dict_not_optional hpf)

/-- Witness for C3: the strict-mode node of a plain non-nullable Long field
is required, non-Optional, and has no default. -/
theorem c3_strictness_resolution_witness :
    nodeRequired plainLongNode = true ∧
    nodeStructNullable plainLongNode.1 = false ∧
    hasNoneDefaultFactory plainLongNode = false :=
  (c3_strictness_resolution [] none none Value.vNone true (none, none)
      plainLongField "N" plainLongNode
      (fun sfn h => Option.noConfusion h)
      (Or.inr (by decide))).1 ⟨rfl, rfl⟩

/-- C5 (amended): the shape field's node is `(Any, Field())` in every record
model of the output, for every strictness setting — required (no default is
synthesized), but untyped, so it accepts an explicit null rather than
rejecting it. -/
theorem c5_shape_required_untyped_any (inp : TableInput) (strict : Bool)
    (s : String) (m : TableModel) (ps : List (String × PydTuple))
    (hs : inp.desc.shapeFieldName = some s)
    (hc : make_table_adapter_core inp strict = Except.ok m)
    (hp : ps ∈ m.paramsList) :
    dictLookup ps s = some (PydType.anyType, PydDefault.info emptyField) ∧
    nodeRequired (PydType.anyType, PydDefault.info emptyField) = true ∧
    acceptsNone PydType.anyType = true := by
  refine ⟨?_, rfl, rfl⟩
  unfold make_table_adapter_core at hc
  split at hc
  · split at hc
    · exact absurd hc (by simp)
    next models hbm =>
      split at hc
      · exact absurd hc (by simp)
      · split at hc
        · exact absurd hc (by simp)
        next sfn =>
          injection hc with hc
          subst hc
          simp only [TableModel.paramsList] at hp
          obtain ⟨⟨nm, ps0⟩, hmem, hsnd⟩ := List.mem_map.mp hp
          simp only at hsnd
          subst hsnd
          obtain ⟨cst, hcst, hb⟩ := buildModels_mem hbm _ hmem
          unfold buildSubtypeModel at hb
          split at hb
          · exact absurd hb (by simp)
          next ps1 hloop =>
            injection hb with hb
            have hps : ps1 = ps0 := congrArg Prod.snd hb
            subst hps
            rw [hs] at hloop
            have hpre := runFieldLoop_lookup_preserved
              (fun x k v hx => by
                obtain ⟨hk, _, hsm⟩ := subtypeFieldStep_ok_some hx
                subst hk
                exact shapeMatches_false_ne hsm) hloop
            rw [hpre]
            simp [initParams, dictLookup]
  · split at hc
    · exact absurd hc (by simp)
    next ps0 hloop =>
      injection hc with hc
      subst hc
      simp only [TableModel.paramsList, List.mem_singleton] at hp
      subst hp
      rw [hs] at hloop
      have hpre := runFieldLoop_lookup_preserved
        (fun x k v hx => by
          obtain ⟨hk, _, hsm⟩ := flatFieldStep_ok_some hx
          subst hk
          exact shapeMatches_false_ne hsm) hloop
      rw [hpre]
      simp [initParams, dictLookup]

/-- Witness for C5: the shape node of the concrete feature class, under
non-strict mode. -/
theorem c5_shape_required_untyped_any_witness :
    dictLookup [("Shape", shapeNode)] "Shape" =
      some (PydType.anyType, PydDefault.info emptyField) ∧
    nodeRequired (PydType.anyType, PydDefault.info emptyField) = true ∧
    acceptsNone PydType.anyType = true :=
  c5_shape_required_untyped_any shapeOnlyInput false "Shape"
    (TableModel.flat "t" [("Shape", shapeNode)]) [("Shape", shapeNode)]
    rfl (by decide) (by decide)

/-- C6 (amended): for a field with no domain, in both builders, the derived
node's max_length is `field.length` exactly when the field's value_type is
String; a Text-typed (or any non-String) field gets no length bound. -/
theorem c6_length_bound_string_only (dl : List DomainRec)
    (shape stf : Option String) (code : Value) (strict : Bool)
    (dv : Option Value) (f : FieldRec) (k : String) (t : PydTuple)
    (hdom : f.domain = "")
    (hnotdisc : ∀ sfn, stf = some sfn → f.name ≠ sfn)
    (h : subtypeFieldStep dl shape stf code strict (dv, none) f =
           Except.ok (some (k, t)) ∨
         flatFieldStep dl shape strict f = Except.ok (some (k, t))) :
    nodeMaxLength t = maxLengthOf f ∧
    (f.type = "String" → nodeMaxLength t = some f.length) ∧
    (f.type ≠ "String" → nodeMaxLength t = none) := by
  have hdp : domainPhase dl (effectiveDomainName ((dv, (none : Option String))).2
      f.domain) f.isNullable strict (maxLengthOf f) = Except.ok none := by
    simp [effectiveDomainName, domainPhase, hdom]
  have hdpf : domainPhase dl (effectiveDomainName none f.domain)
      f.isNullable strict (maxLengthOf f) = Except.ok none := by
    simp [effectiveDomainName, domainPhase, hdom]
  have key : nodeMaxLength t = maxLengthOf f := by
    rcases h with h | h
    · unfold subtypeFieldStep at h
      split at h
      · exact absurd h (by simp)
      next pft hpf =>
        split at h
        · exact absurd h (by simp)
        · split at h
          · exact absurd h (by simp)
          · split at h
            · exact absurd h (by simp)
            next t0 heq =>
              rw [hdp] at heq
              exact absurd heq (by simp)
            next heq =>
              split at h
              · exact absurd h (by simp)
              next sfn =>
                split at h
                next heqn => exact absurd heqn (hnotdisc sfn rfl)
                next hne =>
                  injection h with h
                  injection h with h
                  have ht : typeDerivedNode pft (maxLengthOf f) f.isNullable
                      strict f.type = t := congrArg Prod.snd h
                  rw [← ht]
                  exact typeDerivedNode_maxLength pft (maxLengthOf f)
                    f.isNullable strict f.type
    · unfold flatFieldStep at h
      split at h
      · exact absurd h (by simp)
      next pft hpf =>
        split at h
        · exact absurd h (by simp)
        · split at h
          · exact absurd h (by simp)
          · split at h
            · exact absurd h (by simp)
            next t0 heq =>
              rw [hdpf] at heq
              exact absurd heq (by simp)
            next heq =>
              injection h with h
              injection h with h
              have ht : typeDerivedNode pft (maxLengthOf f) f.isNullable
                  strict f.type = t := congrArg Prod.snd h
              rw [← ht]
              exact typeDerivedNode_maxLength pft (maxLengthOf f)
                f.isNullable strict f.type
  refine ⟨key, ?_, ?_⟩
  · intro hstr
    rw [key]
    simp [maxLengthOf, hstr]
  · intro hstr
    rw [key]
    simp [maxLengthOf, hstr]

/-- Witness for C6: the Text field of length 10 gets no max_length bound. -/
theorem c6_length_bound_string_only_witness :
    nodeMaxLength textWitnessNode = maxLengthOf textWitnessField ∧
    (textWitnessField.type = "String" →
      nodeMaxLength textWitnessNode = some textWitnessField.length) ∧
    (textWitnessField.type ≠ "String" → nodeMaxLength textWitnessNode = none) :=
  c6_length_bound_string_only [] none none Value.vNone true none
    textWitnessField "NOTES" textWitnessNode rfl
    (fun sfn h => Option.noConfusion h) (Or.inr (by decide))

/-- C7: a coded-value domain with an empty code set yields no tuple; both
builders then derive the field exactly as if it had no domain (in the
subtype builder including a domain override naming it, in the flat builder
via the field's declared domain); and every literal set inside a tuple that
make_domain_tuple does produce is non-empty. -/
theorem c7_empty_coded_treated_absent :
    (∀ (dl : List DomainRec) (dn : String) (n s : Bool) (ml : Option Nat)
        (d : DomainRec), findDomain dl dn = some d →
        d.domainType = "CodedValue" → d.codedValues = some [] →
        make_domain_tuple dl dn n s ml = Except.ok none) ∧
    (∀ (dl : List DomainRec) (shape stf : Option String) (code : Value)
        (strict : Bool) (dv : Option Value) (dn : String) (f : FieldRec)
        (d : DomainRec), findDomain dl dn = some d →
        d.domainType = "CodedValue" → d.codedValues = some [] →
        subtypeFieldStep dl shape stf code strict (dv, some dn) f =
        subtypeFieldStep dl shape stf code strict (dv, none)
          { f with domain := "" }) ∧
    (∀ (dl : List DomainRec) (shape : Option String) (strict : Bool)
        (f : FieldRec) (d : DomainRec), findDomain dl f.domain = some d →
        d.domainType = "CodedValue" → d.codedValues = some [] →
        flatFieldStep dl shape strict f =
        flatFieldStep dl shape strict { f with domain := "" }) ∧
    (∀ (dl : List DomainRec) (dn : String) (n s : Bool) (ml : Option Nat)
        (t : PydTuple) (cs : List Value),
        make_domain_tuple dl dn n s ml = Except.ok (some t) →
        literalCodes t.1 = some cs → cs ≠ []) := by
  refine ⟨mdt_empty_coded, ?_, ?_,
    fun dl dn n s ml t cs h hl => mdt_applied_coded_nonempty h hl⟩
  · intro dl shape stf code strict dv dn f d hfind hct hcv
    exact subtypeFieldStep_equiv_nodomain dl shape stf code strict dv dn f
      (fun ml => mdt_empty_coded dl dn f.isNullable strict ml d hfind hct hcv)
  · intro dl shape strict f d hfind hct hcv
    exact flatFieldStep_equiv_nodomain dl shape strict f
      (fun ml => mdt_empty_coded dl f.domain f.isNullable strict ml d
        hfind hct hcv)

/-- Witness for C7: a concrete empty coded-value domain is treated as
absent. -/
theorem c7_empty_coded_treated_absent_witness :
    make_domain_tuple [emptyCodedDomain] "EmptyDom" false true none =
      Except.ok none ∧
    flatFieldStep [emptyCodedDomain] none true emptyCodedField =
      flatFieldStep [emptyCodedDomain] none true
        { emptyCodedField with domain := "" } :=
  ⟨c7_empty_coded_treated_absent.1 [emptyCodedDomain] "EmptyDom" false true
      none emptyCodedDomain (by decide) (by decide) (by decide),
   c7_empty_coded_treated_absent.2.2.1 [emptyCodedDomain] none true
      emptyCodedField emptyCodedDomain (by decide) (by decide) (by decide)⟩

/-- C8: a domain name with no catalog entry makes make_domain_tuple return
None without raising, and both builders derive the field exactly as if it
had no domain: schema construction is not aborted by a lookup miss.  (The
warning log of line 87 is a side effect outside this embedding.) -/
theorem c8_lookup_miss_nonfatal_fallback :
    (∀ (dl : List DomainRec) (dn : String) (n s : Bool) (ml : Option Nat),
        findDomain dl dn = none →
        make_domain_tuple dl dn n s ml = Except.ok none) ∧
    (∀ (dl : List DomainRec) (shape stf : Option String) (code : Value)
        (strict : Bool) (dv : Option Value) (dn : String) (f : FieldRec),
        findDomain dl dn = none →
        subtypeFieldStep dl shape stf code strict (dv, some dn) f =
        subtypeFieldStep dl shape stf code strict (dv, none)
          { f with domain := "" }) ∧
    (∀ (dl : List DomainRec) (shape : Option String) (strict : Bool)
        (f : FieldRec), findDomain dl f.domain = none →
        flatFieldStep dl shape strict f =
        flatFieldStep dl shape strict { f with domain := "" }) := by
  refine ⟨fun dl dn n s ml h => mdt_not_found dl dn n s ml h, ?_, ?_⟩
  · intro dl shape stf code strict dv dn f hfind
    exact subtypeFieldStep_equiv_nodomain dl shape stf code strict dv dn f
      (fun ml => mdt_not_found dl dn f.isNullable strict ml hfind)
  · intro dl shape strict f hfind
    exact flatFieldStep_equiv_nodomain dl shape strict f
      (fun ml => mdt_not_found dl f.domain f.isNullable strict ml hfind)

/-- Witness for C8: a concrete lookup miss falls back to the no-domain
derivation without an exception. -/
theorem c8_lookup_miss_nonfatal_fallback_witness :
    make_domain_tuple [] "Missing" false true none = Except.ok none ∧
    flatFieldStep [] none true missLookupField =
      flatFieldStep [] none true { missLookupField with domain := "" } :=
  ⟨c8_lookup_miss_nonfatal_fallback.1 [] "Missing" false true none
      (by decide),
   c8_lookup_miss_nonfatal_fallback.2.2 [] none true missLookupField
      (by decide)⟩

/-- C9 (amended): every key of every record model in the output is either
the declared shape field name (inserted without consulting its editable
flag) or the name of an editable field; every other non-editable field is
excluded. -/
theorem c9_keys_editable_or_shape (inp : TableInput) (strict : Bool)
    (m : TableModel) (ps : List (String × PydTuple)) (k : String)
    (hc : make_table_adapter_core inp strict = Except.ok m)
    (hp : ps ∈ m.paramsList) (hk : k ∈ paramKeys ps) :
    inp.desc.shapeFieldName = some k ∨
      ∃ f, f ∈ inp.desc.fields ∧ f.name = k ∧ f.editable = true := by
  have hinit : ∀ k1, k1 ∈ paramKeys (initParams inp.desc.shapeFieldName) →
      inp.desc.shapeFieldName = some k1 ∨
        ∃ f, f ∈ inp.desc.fields ∧ f.name = k1 ∧ f.editable = true := by
    intro k1 hk1
    cases hsf : inp.desc.shapeFieldName with
    | none => rw [hsf] at hk1; simp [initParams, paramKeys] at hk1
    | some s =>
      rw [hsf] at hk1
      simp only [initParams, paramKeys, List.map_cons, List.map_nil,
        List.mem_singleton] at hk1
      subst hk1
      exact Or.inl rfl
  unfold make_table_adapter_core at hc
  split at hc
  · split at hc
    · exact absurd hc (by simp)
    next models hbm =>
      split at hc
      · exact absurd hc (by simp)
      · split at hc
        · exact absurd hc (by simp)
        next sfn =>
          injection hc with hc
          subst hc
          simp only [TableModel.paramsList] at hp
          obtain ⟨⟨nm, ps0⟩, hmem, hsnd⟩ := List.mem_map.mp hp
          simp only at hsnd
          subst hsnd
          obtain ⟨cst, hcst, hb⟩ := buildModels_mem hbm _ hmem
          unfold buildSubtypeModel at hb
          split at hb
          · exact absurd hb (by simp)
          next ps1 hloop =>
            injection hb with hb
            have hps : ps1 = ps0 := congrArg Prod.snd hb
            subst hps
            refine runFieldLoop_keys ?_ hinit hloop k hk
            intro x hx k1 v1 hx1
            obtain ⟨hk1, hed, _⟩ := subtypeFieldStep_ok_some hx1
            subst hk1
            exact Or.inr ⟨x.2, (List.of_mem_zip hx).2, rfl, hed⟩
  · split at hc
    · exact absurd hc (by simp)
    next ps0 hloop =>
      injection hc with hc
      subst hc
      simp only [TableModel.paramsList, List.mem_singleton] at hp
      subst hp
      refine runFieldLoop_keys ?_ hinit hloop k hk
      intro x hx k1 v1 hx1
      obtain ⟨hk1, hed, _⟩ := flatFieldStep_ok_some hx1
      subst hk1
      exact Or.inr ⟨x, hx, rfl, hed⟩

/-- Witness for C9: the key NAME of the concrete schema belongs to an
editable field. -/
theorem c9_keys_editable_or_shape_witness :
    nonEditableShapeInput.desc.shapeFieldName = some "NAME" ∨
      ∃ f, f ∈ nonEditableShapeInput.desc.fields ∧ f.name = "NAME" ∧
        f.editable = true :=
  c9_keys_editable_or_shape nonEditableShapeInput true
    (TableModel.flat "t" [("Shape", shapeNode),
      ("NAME", (PydType.strType, PydDefault.info
        { defaultNone := false, maxLength := some 5, ge := none, le := none }))])
    [("Shape", shapeNode),
     ("NAME", (PydType.strType, PydDefault.info
        { defaultNone := false, maxLength := some 5, ge := none, le := none }))]
    "NAME" (by decide) (by decide) (by decide)

/-- C10: the subtype builder pairs FieldValues entries with the table's
fields positionally: the built model depends only on the sequence of
(default, domain override) values, never on the entry keys; and on a
concrete table whose FieldValues order disagrees with the field order, the
override keyed STATUS lands on the field TYPE while STATUS gets the plain
type-derived node. -/
theorem c10_positional_field_values :
    (∀ (inp : TableInput) (stf : Option String) (strict : Bool) (code : Value)
        (snm : String)
        (kvs1 kvs2 : List (String × (Option Value × Option String))),
        kvs1.map Prod.snd = kvs2.map Prod.snd →
        buildSubtypeModel inp stf strict
          (code, { name := snm, fieldValues := kvs1 }) =
        buildSubtypeModel inp stf strict
          (code, { name := snm, fieldValues := kvs2 })) ∧
    make_table_adapter (Except.ok swappedOrderInput) true =
      some (TableModel.union "TYPE" [("t-A",
        [("TYPE", (PydType.literal [Value.vInt 7], PydDefault.info emptyField)),
         ("STATUS", (PydType.intType, PydDefault.info
           { defaultNone := false, maxLength := none,
             ge := some ((-2147483648 : ℚ)), le := some ((2147483647 : ℚ)) }))])]) :=
  ⟨buildSubtypeModel_ignores_value_keys, by decide⟩

/-- Witness for C10: renaming every FieldValues key leaves the built subtype
model unchanged. -/
theorem c10_positional_field_values_witness :
    buildSubtypeModel swappedOrderInput none true
      (Value.vInt 1,
        { name := "A",
          fieldValues := [("STATUS", (none, none)), ("TYPE", (none, none))] }) =
    buildSubtypeModel swappedOrderInput none true
      (Value.vInt 1,
        { name := "A",
          fieldValues := [("X", (none, none)), ("Y", (none, none))] }) :=
  c10_positional_field_values.1 swappedOrderInput none true (Value.vInt 1) "A"
    [("STATUS", (none, none)), ("TYPE", (none, none))]
    [("X", (none, none)), ("Y", (none, none))] (by decide)

end SspEsri
